import Mathlib

/-!
Verification of the ISO-TP / UDS client in
`src/python/examples/slcan_uds_standalone.py`.

Bytes are modelled as `Nat` (each in 0..255 where it matters); Python
`bytes` values become `List Nat`.  The ISO-TP layer's interaction with the
CAN adapter is made explicit: the send path takes the Flow Control frame
the code would read from the wire, and the receive path takes the list of
CAN frames that arrive before the overall deadline expires (the end of the
list is the deadline).  Fallible paths return `Option` / an explicit
result type.
-/

/-- Python `bytes.ljust(n, pad)`: pad on the right with `pad` up to length
`n` (unchanged when already at least `n` long). -/
def ljust (l : List Nat) (n : Nat) (pad : Nat) : List Nat :=
  l ++ List.replicate (n - l.length) pad

/-- The Flow Control record built at
`SimpleISOTP._wait_for_flow_control` (lines 249-253):
`{'status': data[0] & 0x0F, 'block_size': data[1], 'st_min': data[2]}`. -/
structure FlowControl where
  status : Nat
  block_size : Nat
  st_min : Nat
deriving DecidableEq

/-- Single Frame built at lines 198-201: `bytes([len(data)]) + data`,
padded to 8 with 0xCC. -/
def singleFrame (data : List Nat) : List Nat :=
  ljust (data.length :: data) 8 0xCC

/-- First Frame built at lines 208-209:
`bytes([0x10 | ((len(data) >> 8) & 0x0F), len(data) & 0xFF]) + data[:6]`. -/
def firstFrame (data : List Nat) : List Nat :=
  (0x10 ||| ((data.length >>> 8) &&& 0x0F)) :: (data.length &&& 0xFF) :: data.take 6

/-- The Consecutive Frames emitted by the `while remaining:` loop at
lines 223-231: each frame is `bytes([0x20 | (seq & 0x0F)]) + remaining[:7]`
padded to 8 with 0xCC, then `remaining = remaining[7:]` and
`seq = (seq + 1) & 0x0F`.  The loop never consults the Flow Control's
status or block size, so the whole run of frames is produced at once. -/
def cfFrames : List Nat → Nat → List (List Nat)
  | [], _ => []
  | a :: rest, seq =>
      ljust ((0x20 ||| (seq &&& 0x0F)) :: (a :: rest).take 7) 8 0xCC ::
      cfFrames (rest.drop 6) ((seq + 1) &&& 0x0F)
termination_by remaining _ => remaining.length
decreasing_by
  simp
  omega

/-- Frames transmitted by the send half of `SimpleISOTP.send_receive`
(lines 194-234), together with a success flag.  `fc` is the Flow Control
frame `_wait_for_flow_control` returned (`none` = FC timeout, in which
case the code returns `None` after having sent only the First Frame). -/
def send_receive_tx (data : List Nat) (fc : Option FlowControl) : List (List Nat) × Bool :=
  if data.length ≤ 7 then
    ([singleFrame data], true)
  else
    match fc with
    | none => ([firstFrame data], false)
    | some _ => (firstFrame data :: cfFrames (data.drop 6) 1, true)

/-- Inter-frame sleep performed at lines 233-234, in microseconds:
`if fc['st_min'] > 0: time.sleep(fc['st_min'] / 1000.0)` — i.e. the raw
byte is slept as that many milliseconds (= `st_min * 1000` µs). -/
def cfSleepMicros (st_min : Nat) : Nat :=
  if 0 < st_min then st_min * 1000 else 0

/-- Decoding table for the STmin byte as the specification states it
(for comparison with `cfSleepMicros`): 0x00-0x7F are milliseconds,
0xF1-0xF9 are 100-900 microseconds, other values reserved (treated 0). -/
def stmin_decode_spec (v : Nat) : Nat :=
  if v ≤ 0x7F then v * 1000
  else if 0xF1 ≤ v ∧ v ≤ 0xF9 then (v - 0xF0) * 100
  else 0

/-- `SimpleISOTP._wait_for_flow_control` (lines 239-255): scan arriving
frames for the first one on `rx_id` with at least 3 bytes whose PCI nibble
is 0x3; return its status / block size / STmin fields.  The end of the
list is the timeout (`None`). -/
def wait_for_flow_control (rx_id : Nat) : List (Nat × List Nat) → Option FlowControl
  | [] => none
  | (can_id, data) :: rest =>
      if can_id = rx_id ∧ 3 ≤ data.length ∧ (data.headD 0 &&& 0xF0) = 0x30 then
        some ⟨data.headD 0 &&& 0x0F, data.getD 1 0, data.getD 2 0⟩
      else wait_for_flow_control rx_id rest

/-- Mutable state of the `SimpleISOTP._receive_response` loop
(lines 259-262): `buffer = b''`, `expected_length = 0`, `seq = 1`. -/
structure RecvState where
  buffer : List Nat
  expected_length : Nat
  seq : Nat
deriving DecidableEq

/-- Outcome of one iteration of the receive loop: keep looping with an
updated state, or return a message to the caller. -/
inductive StepOut where
  | cont (st : RecvState)
  | done (msg : List Nat)
deriving DecidableEq

/-- One iteration of the `while` loop of `_receive_response`
(lines 264-295) on an arrived frame `(can_id, data)`:
frames on the wrong id are skipped; `pci = data[0] & 0xF0` dispatches on
Single Frame (return `data[1:1+length]`), First Frame (reset the buffer
to `data[2:]`, record the 12-bit expected length, `seq = 1`; the Flow
Control frame the code also transmits here does not affect the returned
value), and Consecutive Frame (append only when `data[0] & 0x0F` equals
the expected `seq`, returning `buffer[:expected_length]` once enough
bytes accumulated; a mismatched sequence number leaves the state
untouched).  Any other PCI falls through to the next iteration. -/
def receive_step (rx_id : Nat) (st : RecvState) (f : Nat × List Nat) : StepOut :=
  if f.1 ≠ rx_id then .cont st
  else
    let data := f.2
    let pci := data.headD 0 &&& 0xF0
    if pci = 0x00 then
      .done ((data.drop 1).take (data.headD 0 &&& 0x0F))
    else if pci = 0x10 then
      .cont ⟨data.drop 2, ((data.headD 0 &&& 0x0F) <<< 8) ||| data.getD 1 0, 1⟩
    else if pci = 0x20 then
      if data.headD 0 &&& 0x0F = st.seq then
        if st.expected_length ≤ st.buffer.length + (data.drop 1).length then
          .done ((st.buffer ++ data.drop 1).take st.expected_length)
        else
          .cont ⟨st.buffer ++ data.drop 1, st.expected_length, (st.seq + 1) &&& 0x0F⟩
      else .cont st
    else .cont st

/-- The receive loop of `_receive_response` over the frames that arrive
before the deadline; the end of the list is the deadline, at which the
code runs line 297: `return buffer if buffer else None`. -/
def receive_go (rx_id : Nat) (st : RecvState) : List (Nat × List Nat) → Option (List Nat)
  | [] => if st.buffer.isEmpty then none else some st.buffer
  | f :: fs =>
      match receive_step rx_id st f with
      | .done m => some m
      | .cont st' => receive_go rx_id st' fs

/-- `SimpleISOTP._receive_response` (lines 257-297). -/
def receive_response (rx_id : Nat) (frames : List (Nat × List Nat)) : Option (List Nat) :=
  receive_go rx_id ⟨[], 0, 1⟩ frames

/-- The 12-bit length a receiver reads out of a First Frame
(line 280): `((data[0] & 0x0F) << 8) | data[1]`. -/
def ffAnnouncedLen (frame : List Nat) : Nat :=
  ((frame.headD 0 &&& 0x0F) <<< 8) ||| frame.getD 1 0

/-- Result of `SimpleUDSClient.send_request` (lines 321-334): `timeout`
models the `TimeoutError` raised when ISO-TP returned `None`, `negative`
models the exception raised for a negative response (carrying the NRC
byte `response[2]`), and `ok` is the returned byte sequence. -/
inductive UDSResult where
  | timeout
  | negative (nrc : Nat)
  | ok (resp : List Nat)
deriving DecidableEq

/-- `SimpleUDSClient.send_request` (lines 321-334), as a function of the
ISO-TP layer's result: `None` raises `TimeoutError`; a response with
`len(response) >= 3 and response[0] == 0x7F` raises the negative-response
exception with NRC `response[2]`; anything else is returned unchanged. -/
def send_request (response : Option (List Nat)) : UDSResult :=
  match response with
  | none => .timeout
  | some r =>
      if 3 ≤ r.length ∧ r.headD 0 = 0x7F then .negative (r.getD 2 0)
      else .ok r

/-- `SimpleUDSClient.read_data_by_identifier` (lines 340-348), as a
function of the ISO-TP result for the `[0x22, DID_hi, DID_lo]` request:
propagate `send_request`'s outcome; on a returned response, give
`response[3:]` when `len(response) > 3` and `b''` otherwise. -/
def read_data_by_identifier (response : Option (List Nat)) : UDSResult :=
  match send_request response with
  | .ok r => .ok (if 3 < r.length then r.drop 3 else [])
  | .timeout => .timeout
  | .negative n => .negative n

/-! Helper lemmas. -/

/-- Length of the Consecutive Frame run: one frame per 7 payload bytes,
rounded up. -/
theorem cfFrames_length (remaining : List Nat) (seq : Nat) :
    (cfFrames remaining seq).length = (remaining.length + 6) / 7 := by
  induction remaining, seq using cfFrames.induct with
  | case1 s => simp [cfFrames]
  | case2 a rest s ih => simp [cfFrames, ih]; omega

/-- The 12-bit length a receiver reads back out of the First Frame header
the sender builds for a payload of length `L` is `L % 4096`. -/
theorem announced_eq_mod (L : Nat) :
    (((0x10 ||| ((L >>> 8) &&& 0x0F)) &&& 0x0F) <<< 8) ||| (L &&& 0xFF) = L % 4096 := by
  have e1 : (0x10 ||| ((L >>> 8) &&& 0x0F)) &&& 0x0F = (L >>> 8) &&& 0x0F := by
    rw [Nat.and_distrib_right, Nat.and_assoc]
    have h16 : (16 : Nat) &&& 15 = 0 := by decide
    have h15 : (15 : Nat) &&& 15 = 15 := by decide
    show 16 &&& 15 ||| (L >>> 8 &&& (15 &&& 15)) = L >>> 8 &&& 15
    rw [h16, h15, Nat.zero_or]
  have m4 : ∀ x : Nat, x &&& 0x0F = x % 16 := fun x => Nat.and_pow_two_sub_one_eq_mod x 4
  have m8 : ∀ x : Nat, x &&& 0xFF = x % 256 := fun x => Nat.and_pow_two_sub_one_eq_mod x 8
  rw [e1, m4, m8, Nat.shiftRight_eq_div_pow, Nat.shiftLeft_eq]
  have hb : L % 256 < 2 ^ 8 := by omega
  rw [Nat.mul_comm, ← Nat.mul_add_lt_is_or hb]
  have h256 : (2 : Nat) ^ 8 = 256 := by norm_num
  rw [h256]
  omega

/-- A length of at most 7 has no bits in the 0xF0 mask. -/
theorem and_f0_of_le_seven (n : Nat) (h : n ≤ 7) : n &&& 0xF0 = 0 := by
  interval_cases n <;> decide

/-- A length of at most 7 is unchanged by the 0x0F mask. -/
theorem and_0f_of_le_seven (n : Nat) (h : n ≤ 7) : n &&& 0x0F = n := by
  interval_cases n <;> decide

/-! Claim C1. -/

/-- Counterexample to claim C1: the client receives the negative response
`7F 22 78` (NRC 0x78, requestCorrectlyReceivedResponsePending) and
surfaces it to the caller as a raised negative-response error, instead of
consuming it and continuing to wait for the final response. -/
theorem c1_nrc78_surfaced_cex :
    send_request (some [0x7F, 0x22, 0x78]) = UDSResult.negative 0x78 := by
  decide

/-- Claim C1 amended: every negative response of at least three bytes,
NRC 0x78 included, is surfaced by `send_request` as a raised
negative-response error carrying `response[2]`; there is no
response-pending handling and no P2*-based timer restart. -/
theorem c1_negative_response_always_surfaced (r : List Nat)
    (hlen : 3 ≤ r.length) (hneg : r.headD 0 = 0x7F) :
    send_request (some r) = UDSResult.negative (r.getD 2 0) := by
  simp only [List.headD_eq_head?_getD] at hneg
  simp [send_request, hlen, hneg]

/-- Witness for the amended claim C1 at the concrete negative response
`7F 10 33`. -/
theorem c1_negative_response_always_surfaced_witness :
    send_request (some [0x7F, 0x10, 0x33]) = UDSResult.negative 0x33 :=
  c1_negative_response_always_surfaced [0x7F, 0x10, 0x33] (by decide) (by decide)

/-! Claim C2. -/

/-- Counterexample to claim C2: after a First Frame announcing 10 bytes, a
Consecutive Frame with sequence number 2 arrives where 1 was expected.
Reassembly does not abort with a sequence-error: the out-of-order frame is
silently dropped and the next in-order frame completes the message. -/
theorem c2_out_of_order_cf_ignored_cex :
    receive_response 0x7E8
      [(0x7E8, [0x10, 0x0A, 1, 2, 3, 4, 5, 6]),
       (0x7E8, [0x22, 99, 99, 99, 99, 99, 99, 99]),
       (0x7E8, [0x21, 7, 8, 9, 10, 0xCC, 0xCC, 0xCC])] =
      some [1, 2, 3, 4, 5, 6, 7, 8, 9, 10] := by
  decide

/-- Claim C2 amended: a Consecutive Frame whose 4-bit sequence number
differs from the expected one is silently discarded — the receive-loop
state (buffer, expected length, expected sequence) is left unchanged and
reassembly continues — rather than aborting with a sequence-error. -/
theorem c2_out_of_order_cf_dropped (rx : Nat) (st : RecvState) (data : List Nat)
    (hpci : data.headD 0 &&& 0xF0 = 0x20) (hseq : data.headD 0 &&& 0x0F ≠ st.seq) :
    receive_step rx st (rx, data) = StepOut.cont st := by
  simp only [List.headD_eq_head?_getD] at hpci hseq
  simp [receive_step, hpci, hseq]

/-- Witness for the amended claim C2: a frame with sequence number 2
arriving while sequence 1 is expected leaves the state untouched. -/
theorem c2_out_of_order_cf_dropped_witness :
    receive_step 0x7E8 ⟨[1, 2, 3, 4, 5, 6], 10, 1⟩
      (0x7E8, [0x22, 9, 9, 9, 9, 9, 9, 9]) =
      StepOut.cont ⟨[1, 2, 3, 4, 5, 6], 10, 1⟩ :=
  c2_out_of_order_cf_dropped 0x7E8 ⟨[1, 2, 3, 4, 5, 6], 10, 1⟩
    [0x22, 9, 9, 9, 9, 9, 9, 9] (by decide) (by decide)

/-! Claim C3. -/

/-- Counterexample to claim C3: a reply starting with 0x50 to a
ReadDataByIdentifier request (SID 0x22, so a positive reply must start
with 0x62) is not rejected as a protocol-error: `send_request` returns it
verbatim and `read_data_by_identifier` even extracts data bytes from it. -/
theorem c3_sid_echo_not_checked_cex :
    send_request (some [0x50, 0x01, 0x00, 0xAB]) =
        UDSResult.ok [0x50, 0x01, 0x00, 0xAB] ∧
    read_data_by_identifier (some [0x50, 0x01, 0x00, 0xAB]) =
        UDSResult.ok [0xAB] := by
  decide

/-- Claim C3 amended: the client never checks the SID echo. Every reply
whose first byte is not 0x7F — whatever its first byte, matching the
request SID + 0x40 or not — is returned to the caller unchanged as a
positive response. -/
theorem c3_non_negative_reply_returned_verbatim (r : List Nat)
    (h : r.headD 0 ≠ 0x7F) :
    send_request (some r) = UDSResult.ok r := by
  simp only [List.headD_eq_head?_getD] at h
  simp [send_request, h]

/-- Witness for the amended claim C3 at the concrete reply `50 03`. -/
theorem c3_non_negative_reply_returned_verbatim_witness :
    send_request (some [0x50, 0x03]) = UDSResult.ok [0x50, 0x03] :=
  c3_non_negative_reply_returned_verbatim [0x50, 0x03] (by decide)

/-! Claim C4. -/

/-- Counterexample to claim C4: the Flow Control frame has status Abort
(low nibble 2), yet the transfer is not terminated — a Consecutive Frame
(first byte 0x21) is transmitted after the First Frame and the send
succeeds. -/
theorem c4_fc_abort_ignored_cex :
    send_receive_tx [1, 2, 3, 4, 5, 6, 7, 8] (some ⟨2, 0, 0⟩) =
      ([[0x10, 0x08, 1, 2, 3, 4, 5, 6],
        [0x21, 7, 8, 0xCC, 0xCC, 0xCC, 0xCC, 0xCC]], true) := by
  simp [send_receive_tx, cfFrames, ljust, firstFrame]
  decide

/-- Claim C4 amended: the Flow Control frame's status field is read but
never acted on. For every status value — Continue (0), Wait (1), Abort
(2), or anything else — the sender transmits the First Frame followed by
the complete run of Consecutive Frames; there is no transport-abort, no
renewed wait for another Flow Control, and no wait-limit. -/
theorem c4_fc_status_ignored (data : List Nat) (status bs stm : Nat)
    (h : 7 < data.length) :
    send_receive_tx data (some ⟨status, bs, stm⟩) =
      (firstFrame data :: cfFrames (data.drop 6) 1, true) := by
  have h' : ¬ data.length ≤ 7 := by omega
  simp [send_receive_tx, h']

/-- Witness for the amended claim C4 at an 8-byte payload and an Abort
Flow Control. -/
theorem c4_fc_status_ignored_witness :
    send_receive_tx [1, 2, 3, 4, 5, 6, 7, 8] (some ⟨2, 0, 0⟩) =
      (firstFrame [1, 2, 3, 4, 5, 6, 7, 8] :: cfFrames [7, 8] 1, true) :=
  c4_fc_status_ignored [1, 2, 3, 4, 5, 6, 7, 8] 2 0 0 (by decide)

/-! Claim C5. -/

/-- Counterexample to claim C5: the Flow Control announces BlockSize 1,
but after that single Flow Control the sender transmits all three
Consecutive Frames of a 21-byte payload (4 frames in total) without
pausing for another Flow Control. -/
theorem c5_block_size_ignored_cex :
    ((send_receive_tx
        [1, 2, 3, 4, 5, 6, 7, 8, 9, 10, 11, 12, 13, 14, 15, 16, 17, 18, 19, 20, 21]
        (some ⟨0, 1, 0⟩)).1).length = 4 ∧
    (send_receive_tx
        [1, 2, 3, 4, 5, 6, 7, 8, 9, 10, 11, 12, 13, 14, 15, 16, 17, 18, 19, 20, 21]
        (some ⟨0, 1, 0⟩)).2 = true := by
  constructor
  · simp [send_receive_tx, cfFrames_length]
  · simp [send_receive_tx]

/-- Claim C5 amended: the BlockSize field is ignored. Whatever BS the
Flow Control announces (including BS > 0), the sender transmits every
Consecutive Frame — `⌊len/7⌋` of them for a payload of length `len > 7`
— after the single Flow Control, never pausing to await another one. -/
theorem c5_all_cfs_sent_one_block (data : List Nat) (fc : FlowControl)
    (h : 7 < data.length) (_hbs : 0 < fc.block_size) :
    ((send_receive_tx data (some fc)).1).length = 1 + data.length / 7 ∧
    (send_receive_tx data (some fc)).2 = true := by
  have h' : ¬ data.length ≤ 7 := by omega
  constructor
  · simp [send_receive_tx, h', cfFrames_length]
    omega
  · simp [send_receive_tx, h']

/-- Witness for the amended claim C5 at a 14-byte payload with
BlockSize 3. -/
theorem c5_all_cfs_sent_one_block_witness :
    ((send_receive_tx (List.replicate 14 2) (some ⟨0, 3, 0⟩)).1).length = 3 ∧
    (send_receive_tx (List.replicate 14 2) (some ⟨0, 3, 0⟩)).2 = true :=
  c5_all_cfs_sent_one_block (List.replicate 14 2) ⟨0, 3, 0⟩ (by decide) (by decide)

/-! Claim C6. -/

/-- Counterexample to claim C6: the reserved STmin byte 0xF1 makes the
sender sleep 241000 µs (241 ms, its raw value in milliseconds) instead of
the specified 100 µs, and the reserved byte 0x80 makes it sleep 128000 µs
instead of the specified 0. -/
theorem c6_stmin_reserved_raw_ms_cex :
    cfSleepMicros 0xF1 = 241000 ∧ stmin_decode_spec 0xF1 = 100 ∧
    cfSleepMicros 0x80 = 128000 ∧ stmin_decode_spec 0x80 = 0 := by
  decide

/-- Claim C6 amended: only the 0x00-0x7F range is honoured as the table
says (that many milliseconds). Every byte of 0x80 and above — the
0xF1-0xF9 microsecond range included — is slept as its raw numeric value
in milliseconds, where the table prescribes 100-900 µs or 0. -/
theorem c6_stmin_code_vs_spec (v w : Nat) (hv : v ≤ 0x7F)
    (hw1 : 0xF1 ≤ w) (hw2 : w ≤ 0xF9) :
    cfSleepMicros v = stmin_decode_spec v ∧
    cfSleepMicros w = w * 1000 ∧
    stmin_decode_spec w = (w - 0xF0) * 100 := by
  refine ⟨?_, ?_, ?_⟩
  · rcases Nat.eq_zero_or_pos v with h0 | h0
    · subst h0; decide
    · simp [cfSleepMicros, stmin_decode_spec, h0, hv]
  · have hw : 0 < w := by omega
    simp [cfSleepMicros, hw]
  · have h1 : ¬ w ≤ 0x7F := by omega
    simp [stmin_decode_spec, h1, hw1, hw2]

/-- Witness for the amended claim C6 at STmin bytes 0x05 and 0xF2. -/
theorem c6_stmin_code_vs_spec_witness :
    cfSleepMicros 0x05 = stmin_decode_spec 0x05 ∧
    cfSleepMicros 0xF2 = 0xF2 * 1000 ∧
    stmin_decode_spec 0xF2 = (0xF2 - 0xF0) * 100 :=
  c6_stmin_code_vs_spec 0x05 0xF2 (by decide) (by decide) (by decide)

/-! Claim C7. -/

/-- Whenever a Flow Control frame arrives, the send path reports success,
whatever the payload. -/
theorem tx_some_fc_ok (data : List Nat) (fc : FlowControl) :
    (send_receive_tx data (some fc)).2 = true := by
  by_cases h : data.length ≤ 7 <;> simp [send_receive_tx, h]

/-- Reading the announced length off an explicit two-byte header. -/
theorem ffAnnouncedLen_cons (a b : Nat) (l : List Nat) :
    ffAnnouncedLen (a :: b :: l) = ((a &&& 0x0F) <<< 8) ||| b := rfl

/-- Counterexample to claim C7: a 4096-byte payload is not rejected — the
send path completes successfully — and its First Frame announces a 12-bit
length of 0 (= 4096 mod 4096). -/
theorem c7_oversize_payload_truncated_cex :
    (send_receive_tx (List.replicate 4096 0xAA) (some ⟨0, 0, 0⟩)).2 = true ∧
    ffAnnouncedLen (firstFrame (List.replicate 4096 0xAA)) = 0 ∧
    (List.replicate 4096 (0xAA : Nat)).length = 4096 := by
  refine ⟨?_, ?_, ?_⟩
  · exact tx_some_fc_ok _ _
  · unfold firstFrame
    rw [List.length_replicate, ffAnnouncedLen_cons, announced_eq_mod 4096]
  · exact List.length_replicate 4096 0xAA

/-- Claim C7 amended: the send path performs no length check. Every
payload longer than 7 bytes — lengths above 4095 included — is
transmitted, with the First Frame's 12-bit length field holding the true
length reduced modulo 4096. -/
theorem c7_oversize_sent_with_mod_length (data : List Nat) (fc : FlowControl)
    (h : 7 < data.length) :
    (send_receive_tx data (some fc)).2 = true ∧
    ffAnnouncedLen (firstFrame data) = data.length % 4096 := by
  have h' : ¬ data.length ≤ 7 := by omega
  constructor
  · simp [send_receive_tx, h']
  · simpa [ffAnnouncedLen, firstFrame] using announced_eq_mod data.length

/-- Witness for the amended claim C7 at an 8-byte payload. -/
theorem c7_oversize_sent_with_mod_length_witness :
    (send_receive_tx (List.replicate 8 1) (some ⟨0, 0, 0⟩)).2 = true ∧
    ffAnnouncedLen (firstFrame (List.replicate 8 1)) = 8 % 4096 :=
  c7_oversize_sent_with_mod_length (List.replicate 8 1) ⟨0, 0, 0⟩ (by decide)

/-! Claim C8. -/

/-- Counterexample to claim C8: a positive ReadDataByIdentifier reply of
only two bytes — shorter than the three-byte minimum — is not rejected as
a protocol-error: the client silently returns an empty result. -/
theorem c8_short_reply_silent_empty_cex :
    read_data_by_identifier (some [0x62, 0xF1]) = UDSResult.ok [] := by
  decide

/-- Claim C8 amended: no minimum-length validation exists. Any reply of
at most three bytes whose first byte is not 0x7F makes
`read_data_by_identifier` silently return the empty byte sequence instead
of a protocol-error. -/
theorem c8_short_positive_reply_yields_empty (r : List Nat)
    (hlen : r.length ≤ 3) (h : r.headD 0 ≠ 0x7F) :
    read_data_by_identifier (some r) = UDSResult.ok [] := by
  simp only [List.headD_eq_head?_getD] at h
  have h3 : ¬ 3 < r.length := by omega
  simp [read_data_by_identifier, send_request, h, h3]

/-- Witness for the amended claim C8 at the three-byte reply
`62 F1 90` (SID echo and DID echo with no data bytes). -/
theorem c8_short_positive_reply_yields_empty_witness :
    read_data_by_identifier (some [0x62, 0xF1, 0x90]) = UDSResult.ok [] :=
  c8_short_positive_reply_yields_empty [0x62, 0xF1, 0x90] (by decide) (by decide)

/-! Claim C9. -/

/-- Claim C9 confirmed: for a payload of length 1-7 the send path emits
exactly one Single Frame — its first byte the payload length, then the
payload, padded to 8 bytes with 0xCC — and feeding that frame to the
receive path on the right CAN id yields exactly the original payload. -/
theorem c9_single_frame_round_trip (P : List Nat) (rx : Nat) (fc : Option FlowControl)
    (_h1 : 1 ≤ P.length) (h7 : P.length ≤ 7) :
    send_receive_tx P fc = ([singleFrame P], true) ∧
    singleFrame P = (P.length :: P) ++ List.replicate (8 - (P.length + 1)) 0xCC ∧
    receive_response rx [(rx, singleFrame P)] = some P := by
  refine ⟨?_, ?_, ?_⟩
  · simp [send_receive_tx, h7]
  · simp [singleFrame, ljust]
  · have hf0 := and_f0_of_le_seven P.length h7
    have h0f := and_0f_of_le_seven P.length h7
    simp [receive_response, receive_go, receive_step, singleFrame, ljust, hf0, h0f,
      List.take_left']

/-- Witness for claim C9 at the payload `22 F1 90` (a ReadDataByIdentifier
request for DID 0xF190). -/
theorem c9_single_frame_round_trip_witness :
    send_receive_tx [0x22, 0xF1, 0x90] none = ([singleFrame [0x22, 0xF1, 0x90]], true) ∧
    singleFrame [0x22, 0xF1, 0x90] =
      ([0x22, 0xF1, 0x90].length :: [0x22, 0xF1, 0x90]) ++
        List.replicate (8 - ([0x22, 0xF1, 0x90].length + 1)) 0xCC ∧
    receive_response 0x7E8 [(0x7E8, singleFrame [0x22, 0xF1, 0x90])] =
      some [0x22, 0xF1, 0x90] :=
  c9_single_frame_round_trip [0x22, 0xF1, 0x90] 0x7E8 none (by decide) (by decide)

/-! Claim C10. -/

/-- Claim C10 confirmed: when the overall deadline expires after a First
Frame opened a multi-frame reassembly that never accumulated the
announced number of bytes, the receive path hands the partial buffer (the
First Frame's payload tail here) to the caller as if it were the complete
message; only when nothing at all was accumulated does it return `None`,
which `send_request` turns into a timeout error. -/
theorem c10_partial_buffer_on_deadline (rx b0 b1 : Nat) (rest : List Nat)
    (hpci : b0 &&& 0xF0 = 0x10) (hne : rest ≠ [])
    (_hshort : rest.length < ffAnnouncedLen (b0 :: b1 :: rest)) :
    receive_response rx [(rx, b0 :: b1 :: rest)] = some rest ∧
    receive_response rx [] = none ∧
    send_request (receive_response rx []) = UDSResult.timeout := by
  refine ⟨?_, rfl, rfl⟩
  simp [receive_response, receive_go, receive_step, hpci, hne]

/-- Witness for claim C10 at the First Frame `10 14 62 F1 90 31 48 47`
(announcing 20 bytes, of which only 6 ever arrive). -/
theorem c10_partial_buffer_on_deadline_witness :
    receive_response 0x7E8 [(0x7E8, [0x10, 0x14, 0x62, 0xF1, 0x90, 0x31, 0x48, 0x47])] =
      some [0x62, 0xF1, 0x90, 0x31, 0x48, 0x47] ∧
    receive_response 0x7E8 [] = none ∧
    send_request (receive_response 0x7E8 []) = UDSResult.timeout :=
  c10_partial_buffer_on_deadline 0x7E8 0x10 0x14 [0x62, 0xF1, 0x90, 0x31, 0x48, 0x47]
    (by decide) (by decide) (by decide)
